import Mathlib

/-!
Verification development for the PersonaPulse AI survey pipeline.

The definitions below are a shallow embedding of the TypeScript sources:
the data model comes from types.ts, the three service functions from
services/geminiService.ts, and the run loop, tabulation and template
handling from App.tsx.  The outcome of each external text-generation
call is passed in explicitly as a value of CallOutcome, so that the
deterministic control flow around those calls can be verified.
-/

set_option autoImplicit false

/-- Question types, from the QuestionType enum in types.ts. -/
inductive QuestionType where
  | OPEN_ENDED
  | MULTIPLE_CHOICE
  | RATING_SCALE
deriving DecidableEq, Repr

/-- A survey question, from the Question interface in types.ts.
The options field is only present for multiple-choice questions. -/
structure Question where
  id : String
  text : String
  type : QuestionType
  options : Option (List String)
deriving DecidableEq, Repr

/-- A survey, from the Survey interface in types.ts. -/
structure Survey where
  title : String
  description : String
  questions : List Question
deriving DecidableEq, Repr

/-- A synthetic respondent profile, from the GeneratedPersona interface in
types.ts. -/
structure GeneratedPersona where
  id : String
  name : String
  age : Int
  occupation : String
  traits : String
  painPoints : String
deriving DecidableEq, Repr

/-- An answer value: the TypeScript union string | number from the
SurveyResponse interface in types.ts. -/
inductive AnswerValue where
  | text (s : String)
  | num (n : Int)
deriving DecidableEq, Repr

/-- One (questionId, answer) pair inside a SurveyResponse. -/
structure AnswerEntry where
  questionId : String
  answer : AnswerValue
deriving DecidableEq, Repr

/-- A simulated response of one persona, from the SurveyResponse
interface in types.ts. -/
structure SurveyResponse where
  personaId : String
  answers : List AnswerEntry
deriving DecidableEq, Repr

/-- Sentiment enum of the analysis result, from types.ts. -/
inductive Sentiment where
  | Positive
  | Neutral
  | Negative
deriving DecidableEq, Repr

/-- The aggregated report, from the AnalysisResult interface in types.ts. -/
structure AnalysisResult where
  summary : String
  keyInsights : List String
  sentiment : Sentiment
  featureSuggestions : List String
deriving DecidableEq, Repr

/-- The wizard step, from the Step union in types.ts. -/
inductive Step where
  | SETUP
  | PERSONAS
  | SIMULATION
  | RESULTS
deriving DecidableEq, Repr

/-- A saved survey template, from the SavedTemplate interface used by
App.tsx. -/
structure SavedTemplate where
  id : String
  name : String
  survey : Survey
  createdAt : Nat
deriving DecidableEq, Repr

/-- The raw (questionId, answer-as-text) pair that the generation
capability returns for the response-simulation call, before
sanitisation; see the response schema in simulateSurveyResponse in
services/geminiService.ts. -/
structure RawAnswer where
  questionId : String
  answer : String
deriving DecidableEq, Repr

/-- The observable outcome of one external ai.models.generateContent
call, as seen by the wrapper in services/geminiService.ts:
the call can throw, return a missing or empty text field, return text
that fails to parse into the expected shape (JSON.parse or the
subsequent field access throws), or return a parsed value. -/
inductive CallOutcome (α : Type) where
  | threw
  | emptyText
  | unparsable
  | parsed (value : α)
deriving DecidableEq, Repr

/-- True on every outcome other than a successfully parsed value. -/
def CallOutcome.isFailure {α : Type} : CallOutcome α → Bool
  | .parsed _ => false
  | _ => true

/-- Accumulates a list of decimal digit characters into a natural
number, most significant first. -/
def digitsToNat (ds : List Char) : Nat :=
  ds.foldl (fun acc c => acc * 10 + (c.toNat - 48)) 0

/-- Model of the JavaScript parseInt builtin applied to a string as in
the sanitisation step of simulateSurveyResponse: skip leading
whitespace, read an optional sign and then a maximal run of decimal
digits; with no digits the result is NaN, modelled as none.  (The
hexadecimal 0x prefix of parseInt is not modelled; no claim involves
it.) -/
def parseIntJS (s : String) : Option Int :=
  let cs := s.data.dropWhile Char.isWhitespace
  let signed : Bool × List Char :=
    match cs with
    | '-' :: rest => (true, rest)
    | '+' :: rest => (false, rest)
    | _ => (false, cs)
  let ds := signed.2.takeWhile Char.isDigit
  if ds.isEmpty then none
  else if signed.1 then some (-(digitsToNat ds : Int))
  else some (digitsToNat ds : Int)

/-- Response coercion: the per-answer branch of the sanitisation map in
simulateSurveyResponse (services/geminiService.ts).  For a rating-scale
question the raw text is parsed with parseInt and an unparsable value
falls back to 3; for any other question type the raw text passes
through unchanged. -/
def coerce (q : Question) (rawAnswer : String) : AnswerValue :=
  if q.type = QuestionType.RATING_SCALE then
    match parseIntJS rawAnswer with
    | some v => AnswerValue.num v
    | none => AnswerValue.num 3
  else
    AnswerValue.text rawAnswer

/-- One step of the sanitisation map in simulateSurveyResponse: look the
question up by id in the survey; a rating-scale question coerces the
answer to a number, any other question (or an unknown question id)
keeps the answer text unchanged. -/
def sanitizeAnswer (survey : Survey) (a : RawAnswer) : AnswerEntry :=
  match survey.questions.find? (fun q => q.id == a.questionId) with
  | some q => { questionId := a.questionId, answer := coerce q a.answer }
  | none => { questionId := a.questionId, answer := AnswerValue.text a.answer }

/-- generatePersonas from services/geminiService.ts, as a function of
the outcome of its single external call.  There is no try/catch in this
function: a thrown error or a parse error propagates to the caller
(modelled as Except.error), while a missing or empty text field returns
an empty persona list. -/
def generatePersonas (outcome : CallOutcome (List GeneratedPersona)) :
    Except Unit (List GeneratedPersona) :=
  match outcome with
  | .threw => .error ()
  | .emptyText => .ok []
  | .unparsable => .error ()
  | .parsed ps => .ok ps

/-- simulateSurveyResponse from services/geminiService.ts, as a function
of the persona, the survey and the outcome of its single external call.
The whole body is wrapped in try/catch: a throw, a missing or empty
text field (which the code turns into a throw) and unparsable text all
reach the catch, which returns a response with the persona id and an
empty answers list.  On success every raw answer is sanitised. -/
def simulateSurveyResponse (persona : GeneratedPersona) (survey : Survey)
    (outcome : CallOutcome (List RawAnswer)) : SurveyResponse :=
  match outcome with
  | .parsed rawAnswers =>
      { personaId := persona.id
        answers := rawAnswers.map (sanitizeAnswer survey) }
  | _ => { personaId := persona.id, answers := [] }

/-- analyzeResults from services/geminiService.ts, as a function of the
outcome of its single external call.  There is no try/catch: a thrown
error or a parse error propagates, and a missing or empty text field is
turned into a throw, so every failure mode rejects. -/
def analyzeResults (outcome : CallOutcome AnalysisResult) :
    Except Unit AnalysisResult :=
  match outcome with
  | .parsed r => .ok r
  | _ => .error ()

/-- The pieces of App.tsx component state that the simulation run reads
and writes: the wizard step, the collected responses, the progress
value and the analysis result. -/
structure AppState where
  step : Step
  responses : List SurveyResponse
  simulationProgress : ℚ
  analysis : Option AnalysisResult

/-- The observable effect of one runSimulation call: the final component
state, the sequence of values passed to setSimulationProgress inside
the loop, and the alert dialogs shown. -/
structure RunOutcome where
  state : AppState
  progressTrace : List ℚ
  alerts : List String

/-- The progress value written after persona i of n has been attempted:
((i + 1) / n) * 100, from the loop body of runSimulation in App.tsx. -/
def progressValue (n : Nat) (i : Nat) : ℚ :=
  (((i : ℚ) + 1) / (n : ℚ)) * 100

/-- runSimulation from App.tsx, as a function of the prior state, the
active participants, the survey, the outcome of the simulation call for
each loop index and the outcome of the analysis call.  With no
participants it alerts and returns early.  Otherwise it loops over the
panel strictly sequentially; simulateSurveyResponse is total, so every
iteration pushes a response and the catch around it is never taken, and
the progress value is updated after every persona.  Afterwards, with at
least one response, a successful analysis moves to the RESULTS step
while a failed one alerts and leaves the step at SIMULATION; with no
responses the step falls back to PERSONAS.  Only the final step, the
stored analysis and the alert depend on that branch, so they are
computed together; the responses, the progress trace and the final
progress value are fixed by the loop. -/
def runSimulation (s0 : AppState) (activeParticipants : List GeneratedPersona)
    (survey : Survey) (simOutcomes : Nat → CallOutcome (List RawAnswer))
    (analysisOutcome : CallOutcome AnalysisResult) : RunOutcome :=
  if activeParticipants.length = 0 then
    { state := s0
      progressTrace := []
      alerts := ["Please add at least one persona to run the simulation."] }
  else
    let n := activeParticipants.length
    let newResponses := activeParticipants.enum.map
      (fun pi => simulateSurveyResponse pi.2 survey (simOutcomes pi.1))
    let trace := (List.range n).map (progressValue n)
    let finalProgress := progressValue n (n - 1)
    let afterLoop : Step × Option AnalysisResult × List String :=
      if newResponses.length > 0 then
        match analyzeResults analysisOutcome with
        | .ok a => (Step.RESULTS, some a, [])
        | .error _ =>
          (Step.SIMULATION, s0.analysis,
           ["Simulation finished, but analysis failed."])
      else (Step.PERSONAS, s0.analysis, [])
    { state := { step := afterLoop.1, responses := newResponses,
                 simulationProgress := finalProgress,
                 analysis := afterLoop.2.1 }
      progressTrace := trace
      alerts := afterLoop.2.2 }

/-- The string key under which an answer is tabulated: the JavaScript
toString coercion applied by the chart-data loop in renderResults. -/
def answerKey : AnswerValue → String
  | .text s => s
  | .num n => toString n

/-- Assignment dataMap[k] = v on the insertion-ordered key/value map
modelling the JavaScript object in renderResults: overwrite the entry
with key k if present, else append a new entry. -/
def setKey : List (String × Nat) → String → Nat → List (String × Nat)
  | [], k, v => [(k, v)]
  | e :: m, k, v => if e.1 == k then (k, v) :: m else e :: setKey m k v

/-- The increment-or-insert step of the counting loop in renderResults:
if the key already has a bucket its count is incremented, otherwise a
fresh bucket with count 1 is appended. -/
def incrKey : List (String × Nat) → String → List (String × Nat)
  | [], k => [(k, 1)]
  | e :: m, k => if e.1 == k then (e.1, e.2 + 1) :: m else e :: incrKey m k

/-- The count recorded for key k, if the map has a bucket for it. -/
def lookupCount (m : List (String × Nat)) (k : String) : Option Nat :=
  (m.find? (fun e => e.1 == k)).map (fun e => e.2)

/-- The zero-seeded buckets of the chart data in renderResults: keys
1..5 for a rating-scale question, the declared options for a
multiple-choice question with options, and nothing otherwise. -/
def seedBuckets (q : Question) : List (String × Nat) :=
  match q.type with
  | .RATING_SCALE => [("1", 0), ("2", 0), ("3", 0), ("4", 0), ("5", 0)]
  | .MULTIPLE_CHOICE =>
    match q.options with
    | some opts => opts.foldl (fun m o => setKey m o 0) []
    | none => []
  | .OPEN_ENDED => []

/-- The chart-data computation of renderResults in App.tsx for one
question: seed the buckets from the question domain, then for each
response that contains an answer for this question increment the bucket
of its stringified answer, appending an extra bucket for an
unrecognised value. -/
def tabulateQuestion (q : Question) (responses : List SurveyResponse) :
    List (String × Nat) :=
  responses.foldl
    (fun m r =>
      match r.answers.find? (fun a => a.questionId == q.id) with
      | some a => incrKey m (answerKey a.answer)
      | none => m)
    (seedBuckets q)

/-- A JSON value, restricted to the shapes that a Survey serialises to;
models the value passed through JSON.stringify and JSON.parse by the
template handlers in App.tsx. -/
inductive Json where
  | str (s : String)
  | arr (items : List Json)
  | obj (fields : List (String × Json))

/-- The string form of a QuestionType enum value, as serialised. -/
def encodeQuestionType : QuestionType → String
  | .OPEN_ENDED => "OPEN_ENDED"
  | .MULTIPLE_CHOICE => "MULTIPLE_CHOICE"
  | .RATING_SCALE => "RATING_SCALE"

/-- Reads a QuestionType back from its string form. -/
def decodeQuestionType (s : String) : Option QuestionType :=
  if s = "OPEN_ENDED" then some QuestionType.OPEN_ENDED
  else if s = "MULTIPLE_CHOICE" then some QuestionType.MULTIPLE_CHOICE
  else if s = "RATING_SCALE" then some QuestionType.RATING_SCALE
  else none

/-- JSON.stringify on a Question: an undefined options field is dropped
from the serialised object. -/
def encodeQuestion (q : Question) : Json :=
  Json.obj
    ([("id", Json.str q.id), ("text", Json.str q.text),
      ("type", Json.str (encodeQuestionType q.type))] ++
      (match q.options with
       | some opts => [("options", Json.arr (opts.map Json.str))]
       | none => []))

/-- JSON.stringify on a Survey. -/
def encodeSurvey (s : Survey) : Json :=
  Json.obj
    [("title", Json.str s.title), ("description", Json.str s.description),
     ("questions", Json.arr (s.questions.map encodeQuestion))]

/-- Field access on a parsed JSON object. -/
def jsonLookup (fields : List (String × Json)) (k : String) : Option Json :=
  (fields.find? (fun e => e.1 == k)).map (fun e => e.2)

/-- A JSON value read as a string. -/
def jsonAsString : Json → Option String
  | .str s => some s
  | _ => none

/-- A JSON value read as an array. -/
def jsonAsArray : Json → Option (List Json)
  | .arr items => some items
  | _ => none

/-- Reads a list of JSON values as a list of strings. -/
def decodeStrings : List Json → Option (List String)
  | [] => some []
  | j :: rest =>
    (jsonAsString j).bind (fun s =>
    (decodeStrings rest).map (fun ss => s :: ss))

/-- The optional options field of a serialised question: absent means
none, present must be an array of strings. -/
def decodeOptionsField (fields : List (String × Json)) :
    Option (Option (List String)) :=
  match jsonLookup fields "options" with
  | none => some none
  | some j => ((jsonAsArray j).bind decodeStrings).map (fun l => some l)

/-- Reconstructs a typed Question from its parsed JSON form. -/
def decodeQuestion (j : Json) : Option Question :=
  match j with
  | .obj fields =>
    ((jsonLookup fields "id").bind jsonAsString).bind (fun id =>
    ((jsonLookup fields "text").bind jsonAsString).bind (fun text =>
    (((jsonLookup fields "type").bind jsonAsString).bind decodeQuestionType).bind (fun ty =>
    (decodeOptionsField fields).bind (fun opts =>
    some { id := id, text := text, type := ty, options := opts }))))
  | _ => none

/-- Reads a list of JSON values as a list of questions. -/
def decodeQuestions : List Json → Option (List Question)
  | [] => some []
  | j :: rest =>
    (decodeQuestion j).bind (fun q =>
    (decodeQuestions rest).map (fun qs => q :: qs))

/-- Reconstructs a typed Survey from its parsed JSON form. -/
def decodeSurvey (j : Json) : Option Survey :=
  match j with
  | .obj fields =>
    ((jsonLookup fields "title").bind jsonAsString).bind (fun title =>
    ((jsonLookup fields "description").bind jsonAsString).bind (fun description =>
    ((jsonLookup fields "questions").bind jsonAsArray).bind (fun items =>
    (decodeQuestions items).bind (fun qs =>
    some { title := title, description := description, questions := qs }))))
  | _ => none

/-- JSON.parse(JSON.stringify(survey)): the deep-copy idiom used by both
saveTemplate and loadTemplate in App.tsx to produce a structurally
fresh snapshot. -/
def deepCopySurvey (s : Survey) : Option Survey :=
  decodeSurvey (encodeSurvey s)

/-- Model of the JavaScript trim method used to validate the template
name: strips leading and trailing whitespace. -/
def jsTrim (s : String) : String :=
  String.mk
    (((s.data.dropWhile Char.isWhitespace).reverse.dropWhile
      Char.isWhitespace).reverse)

/-- saveTemplate from App.tsx: with a blank (whitespace-only) name it
alerts and saves nothing; otherwise it appends a template whose survey
field is a deep copy of the current survey. -/
def saveTemplate (savedTemplates : List SavedTemplate)
    (templateNameInput : String) (survey : Survey) (newId : String)
    (now : Nat) : Option (List SavedTemplate) :=
  if jsTrim templateNameInput = "" then none
  else
    (deepCopySurvey survey).map (fun snapshot =>
      savedTemplates ++
        [{ id := newId, name := templateNameInput, survey := snapshot,
           createdAt := now }])

/-- loadTemplate from App.tsx (the confirmed branch): the survey state
becomes a deep copy of the stored snapshot. -/
def loadTemplate (template : SavedTemplate) : Option Survey :=
  deepCopySurvey template.survey

/-- The initial survey of App.tsx: one rating-scale and one open-ended
question.  Used as a concrete test fixture. -/
def defaultSurvey : Survey :=
  { title := "New Product Concept Survey"
    description := "Validating the need for a new AI-powered productivity tool."
    questions :=
      [{ id := "q1",
         text := "How often do you struggle with organizing your daily tasks?",
         type := QuestionType.RATING_SCALE, options := none },
       { id := "q2",
         text := "What is your biggest pain point with current to-do list apps?",
         type := QuestionType.OPEN_ENDED, options := none }] }

/-- The rating-scale question of the default survey. -/
def ratingQuestion : Question :=
  { id := "q1",
    text := "How often do you struggle with organizing your daily tasks?",
    type := QuestionType.RATING_SCALE, options := none }

/-- A concrete multiple-choice question fixture. -/
def choiceQuestion : Question :=
  { id := "q3", text := "Which plan would you pick?",
    type := QuestionType.MULTIPLE_CHOICE,
    options := some ["Free", "Pro", "Team"] }

/-- A concrete persona fixture. -/
def personaA : GeneratedPersona :=
  { id := "p1", name := "Alice", age := 31, occupation := "Engineer",
    traits := "curious, organised", painPoints := "too many tools" }

/-- A second concrete persona fixture. -/
def personaB : GeneratedPersona :=
  { id := "p2", name := "Bruno", age := 42, occupation := "Designer",
    traits := "visual thinker", painPoints := "context switching" }

/-- A concrete analysis-result fixture. -/
def analysisFixture : AnalysisResult :=
  { summary := "Users want fewer tools.", keyInsights := ["tool fatigue"],
    sentiment := Sentiment.Neutral,
    featureSuggestions := ["integrate calendars"] }

/-- The component state on the PERSONAS step just before a run starts. -/
def readyState : AppState :=
  { step := Step.PERSONAS, responses := [], simulationProgress := 0,
    analysis := none }

/-! Helper lemmas about the loop, the tabulation map and the template
serialisation.  None of them is tied to a single claim. -/

theorem simulateSurveyResponse_of_failure (p : GeneratedPersona) (s : Survey)
    (o : CallOutcome (List RawAnswer)) (h : o.isFailure = true) :
    simulateSurveyResponse p s o = { personaId := p.id, answers := [] } := by
  cases o <;> simp_all [CallOutcome.isFailure, simulateSurveyResponse]

theorem enumFrom_map_all_fail (survey : Survey)
    (so : Nat → CallOutcome (List RawAnswer)) :
    ∀ (k : Nat) (l : List GeneratedPersona),
      (∀ i, k ≤ i → i < k + l.length → (so i).isFailure = true) →
      (List.enumFrom k l).map
          (fun pi => simulateSurveyResponse pi.2 survey (so pi.1)) =
        l.map (fun p => { personaId := p.id, answers := [] }) := by
  intro k l
  induction l generalizing k with
  | nil => intro _; rfl
  | cons p rest ih =>
    intro h
    have hk : (so k).isFailure = true := h k (Nat.le_refl k) (by simp)
    simp only [List.enumFrom, List.map]
    rw [simulateSurveyResponse_of_failure _ _ _ hk,
      ih (k + 1) (fun i h1 h2 => h i (by omega) (by simp at h2 ⊢; omega))]

theorem runSimulation_trace (s0 : AppState) (panel : List GeneratedPersona)
    (survey : Survey) (so : Nat → CallOutcome (List RawAnswer))
    (ao : CallOutcome AnalysisResult) (hne : panel ≠ []) :
    (runSimulation s0 panel survey so ao).progressTrace =
      (List.range panel.length).map (progressValue panel.length) := by
  have h0 : ¬ panel.length = 0 := by simpa using hne
  unfold runSimulation
  rw [if_neg h0]

theorem runSimulation_responses (s0 : AppState) (panel : List GeneratedPersona)
    (survey : Survey) (so : Nat → CallOutcome (List RawAnswer))
    (ao : CallOutcome AnalysisResult) (hne : panel ≠ []) :
    (runSimulation s0 panel survey so ao).state.responses =
      panel.enum.map (fun pi => simulateSurveyResponse pi.2 survey (so pi.1)) := by
  have h0 : ¬ panel.length = 0 := by simpa using hne
  unfold runSimulation
  rw [if_neg h0]

theorem runSimulation_afterLoop_error (s0 : AppState)
    (panel : List GeneratedPersona) (survey : Survey)
    (so : Nat → CallOutcome (List RawAnswer)) (ao : CallOutcome AnalysisResult)
    (hne : panel ≠ []) (hfail : analyzeResults ao = Except.error ()) :
    (runSimulation s0 panel survey so ao).state.step = Step.SIMULATION ∧
    (runSimulation s0 panel survey so ao).state.analysis = s0.analysis ∧
    (runSimulation s0 panel survey so ao).alerts =
      ["Simulation finished, but analysis failed."] := by
  have h0 : ¬ panel.length = 0 := by simpa using hne
  have hlen : (panel.enum.map
      (fun pi => simulateSurveyResponse pi.2 survey (so pi.1))).length > 0 := by
    simp [List.enum_length, Nat.pos_of_ne_zero h0]
  unfold runSimulation
  rw [if_neg h0]
  simp only [hfail, if_pos hlen]
  exact ⟨trivial, trivial, trivial⟩

theorem runSimulation_afterLoop_ok (s0 : AppState)
    (panel : List GeneratedPersona) (survey : Survey)
    (so : Nat → CallOutcome (List RawAnswer)) (ao : CallOutcome AnalysisResult)
    (a : AnalysisResult) (hne : panel ≠ [])
    (hok : analyzeResults ao = Except.ok a) :
    (runSimulation s0 panel survey so ao).state.step = Step.RESULTS ∧
    (runSimulation s0 panel survey so ao).state.analysis = some a ∧
    (runSimulation s0 panel survey so ao).alerts = [] := by
  have h0 : ¬ panel.length = 0 := by simpa using hne
  have hlen : (panel.enum.map
      (fun pi => simulateSurveyResponse pi.2 survey (so pi.1))).length > 0 := by
    simp [List.enum_length, Nat.pos_of_ne_zero h0]
  unfold runSimulation
  rw [if_neg h0]
  simp only [hok, if_pos hlen]
  exact ⟨trivial, trivial, trivial⟩

theorem trace_pairwise (n : Nat) (h0 : n ≠ 0) :
    ((List.range n).map (progressValue n)).Pairwise (· < ·) := by
  have hn : (0 : ℚ) < (n : ℚ) := by exact_mod_cast Nat.pos_of_ne_zero h0
  rw [List.pairwise_map]
  refine (List.pairwise_lt_range n).imp ?_
  intro a b hab
  have hlt : (a : ℚ) + 1 < (b : ℚ) + 1 := by
    exact_mod_cast Nat.succ_lt_succ hab
  exact mul_lt_mul_of_pos_right
    ((div_lt_div_iff_of_pos_right hn).mpr hlt) (by norm_num)

theorem trace_last (n : Nat) (h0 : n ≠ 0) :
    ((List.range n).map (progressValue n)).getLast? = some 100 := by
  have hn : (n : ℚ) ≠ 0 := by exact_mod_cast h0
  have h1 : (1 : Nat) ≤ n := Nat.pos_of_ne_zero h0
  have hlt : n - 1 < n := Nat.sub_lt (Nat.pos_of_ne_zero h0) one_pos
  rw [List.getLast?_eq_getElem?]
  rw [show ((List.range n).map (progressValue n)).length - 1 = n - 1 by simp]
  rw [List.getElem?_map]
  rw [List.getElem?_range hlt]
  simp only [Option.map_some']
  have hcast : ((n - 1 : Nat) : ℚ) + 1 = (n : ℚ) := by
    push_cast [Nat.cast_sub h1]
    ring
  rw [progressValue, hcast, div_self hn, one_mul]

theorem trace_get (n i : Nat) (hi : i < n) :
    ((List.range n).map (progressValue n))[i]? =
      some ((((i : ℚ) + 1) / (n : ℚ)) * 100) := by
  simp [List.getElem?_map, List.getElem?_range hi, progressValue]

theorem lookupCount_incrKey_self (m : List (String × Nat)) (k : String) :
    lookupCount (incrKey m k) k = some ((lookupCount m k).getD 0 + 1) := by
  induction m with
  | nil => simp [incrKey, lookupCount]
  | cons e m ih =>
    by_cases h : e.1 == k
    · simp [incrKey, h, lookupCount, List.find?_cons]
    · simp only [incrKey, h, if_false, Bool.false_eq_true, lookupCount,
        List.find?_cons, h]
      simpa [lookupCount] using ih

theorem lookupCount_incrKey_ne (m : List (String × Nat)) (k k2 : String)
    (hk : k2 ≠ k) :
    lookupCount (incrKey m k) k2 = lookupCount m k2 := by
  induction m with
  | nil =>
    simp [incrKey, lookupCount, List.find?_cons,
      beq_eq_false_iff_ne.mpr (Ne.symm hk)]
  | cons e m ih =>
    by_cases h : e.1 == k
    · have he1 : e.1 = k := eq_of_beq h
      have h2 : (e.1 == k2) = false := by
        refine beq_eq_false_iff_ne.mpr ?_
        rw [he1]
        exact Ne.symm hk
      simp [incrKey, h, lookupCount, List.find?_cons, h2]
    · by_cases h3 : e.1 == k2
      · simp [incrKey, h, lookupCount, List.find?_cons, h3]
      · simp only [incrKey, h, if_false, Bool.false_eq_true, lookupCount,
          List.find?_cons, h3]
        simpa [lookupCount] using ih

theorem tabulateQuestion_append_one (q : Question) (rs : List SurveyResponse)
    (r : SurveyResponse) :
    tabulateQuestion q (rs ++ [r]) =
      match r.answers.find? (fun a => a.questionId == q.id) with
      | some a => incrKey (tabulateQuestion q rs) (answerKey a.answer)
      | none => tabulateQuestion q rs := by
  simp [tabulateQuestion, List.foldl_append]

theorem decodeStrings_map_str (l : List String) :
    decodeStrings (l.map Json.str) = some l := by
  induction l with
  | nil => rfl
  | cons s rest ih => simp [decodeStrings, jsonAsString, ih]

theorem decodeQuestion_encodeQuestion (q : Question) :
    decodeQuestion (encodeQuestion q) = some q := by
  obtain ⟨id, tx, ty, opts⟩ := q
  cases opts with
  | none => cases ty <;> rfl
  | some l =>
    cases ty <;>
      simp [encodeQuestion, decodeQuestion, jsonLookup, jsonAsString,
        decodeQuestionType, encodeQuestionType, decodeOptionsField,
        jsonAsArray, decodeStrings_map_str]

theorem decodeQuestions_map_encode (qs : List Question) :
    decodeQuestions (qs.map encodeQuestion) = some qs := by
  induction qs with
  | nil => rfl
  | cons q rest ih => simp [decodeQuestions, decodeQuestion_encodeQuestion, ih]

theorem deepCopySurvey_eq (s : Survey) : deepCopySurvey s = some s := by
  obtain ⟨t, d, qs⟩ := s
  simp [deepCopySurvey, encodeSurvey, decodeSurvey, jsonLookup, jsonAsString,
    jsonAsArray, decodeQuestions_map_encode]

/-! Claim theorems. -/

/-- Claim C1, counterexample.  The claim says that a persona whose
generation call fails is skipped, with no SurveyResponse appended, and
that with every call failing the response sequence is empty.  On the
code a failed call is absorbed inside simulateSurveyResponse, which
resolves with an empty-answers response, and runSimulation appends it:
with one persona whose call throws, the final response list is the
one-element list with that persona id and empty answers, not the empty
list. -/
theorem runSimulation_failed_persona_still_appended :
    (runSimulation readyState [personaA] defaultSurvey
        (fun _ => CallOutcome.threw) CallOutcome.threw).state.responses =
      [{ personaId := "p1", answers := [] }] ∧
    (runSimulation readyState [personaA] defaultSurvey
        (fun _ => CallOutcome.threw) CallOutcome.threw).state.responses ≠
      [] := by
  exact ⟨by decide, by decide⟩

/-- Claim C1, amended.  If every persona's generation call fails, the
run never raises (runSimulation is a total function) and produces one
SurveyResponse per persona, in panel order, each carrying that persona
id and an empty answers list; the response sequence has length N rather
than being empty, and no failure count exists in the code. -/
theorem runSimulation_all_calls_fail (s0 : AppState)
    (panel : List GeneratedPersona) (survey : Survey)
    (so : Nat → CallOutcome (List RawAnswer)) (ao : CallOutcome AnalysisResult)
    (hne : panel ≠ [])
    (hfail : ∀ i, i < panel.length → (so i).isFailure = true) :
    (runSimulation s0 panel survey so ao).state.responses =
      panel.map (fun p => { personaId := p.id, answers := [] }) ∧
    (runSimulation s0 panel survey so ao).state.responses.length =
      panel.length := by
  have hresp := runSimulation_responses s0 panel survey so ao hne
  constructor
  · rw [hresp]
    exact enumFrom_map_all_fail survey so 0 panel
      (fun i _ h2 => hfail i (by simpa using h2))
  · rw [hresp]
    simp [List.enum_length]

/-- Witness for the amended claim C1 at a concrete two-persona panel
whose calls both throw. -/
theorem runSimulation_all_calls_fail_witness :
    (([personaA, personaB] : List GeneratedPersona) ≠ []) ∧
    (∀ i, i < ([personaA, personaB] : List GeneratedPersona).length →
      ((fun _ => CallOutcome.threw :
          Nat → CallOutcome (List RawAnswer)) i).isFailure = true) ∧
    ((runSimulation readyState [personaA, personaB] defaultSurvey
        (fun _ => CallOutcome.threw) CallOutcome.threw).state.responses =
      [personaA, personaB].map (fun p => { personaId := p.id, answers := [] }) ∧
    (runSimulation readyState [personaA, personaB] defaultSurvey
        (fun _ => CallOutcome.threw) CallOutcome.threw).state.responses.length =
      ([personaA, personaB] : List GeneratedPersona).length) :=
  ⟨by decide, fun _ _ => rfl,
    runSimulation_all_calls_fail readyState [personaA, personaB] defaultSurvey
      (fun _ => CallOutcome.threw) CallOutcome.threw (by decide)
      (fun _ _ => rfl)⟩

/-- Claim C2: for every panel of size N with at least one persona, the
run writes exactly N progress updates, the i-th equal to
((i + 1) / N) * 100, strictly increasing, ending exactly at 100,
whatever the individual call outcomes are. -/
theorem runSimulation_progress_spec (s0 : AppState)
    (panel : List GeneratedPersona) (survey : Survey)
    (so : Nat → CallOutcome (List RawAnswer)) (ao : CallOutcome AnalysisResult)
    (hne : panel ≠ []) :
    (runSimulation s0 panel survey so ao).progressTrace.length =
      panel.length ∧
    (∀ i, i < panel.length →
      (runSimulation s0 panel survey so ao).progressTrace[i]? =
        some ((((i : ℚ) + 1) / (panel.length : ℚ)) * 100)) ∧
    (runSimulation s0 panel survey so ao).progressTrace.Pairwise (· < ·) ∧
    (runSimulation s0 panel survey so ao).progressTrace.getLast? =
      some 100 := by
  have h0 : panel.length ≠ 0 := by simpa using hne
  rw [runSimulation_trace s0 panel survey so ao hne]
  refine ⟨by simp, ?_, trace_pairwise panel.length h0, trace_last panel.length h0⟩
  intro i hi
  exact trace_get panel.length i hi

/-- Witness for claim C2 at a concrete panel of two personas, one
successful call and one thrown call. -/
theorem runSimulation_progress_spec_witness :
    (([personaA, personaB] : List GeneratedPersona) ≠ []) ∧
    ((runSimulation readyState [personaA, personaB] defaultSurvey
        (fun i => if i = 0 then CallOutcome.parsed [⟨"q1", "5"⟩]
          else CallOutcome.threw) CallOutcome.threw).progressTrace.length =
      ([personaA, personaB] : List GeneratedPersona).length ∧
    (∀ i, i < ([personaA, personaB] : List GeneratedPersona).length →
      (runSimulation readyState [personaA, personaB] defaultSurvey
          (fun i => if i = 0 then CallOutcome.parsed [⟨"q1", "5"⟩]
            else CallOutcome.threw) CallOutcome.threw).progressTrace[i]? =
        some ((((i : ℚ) + 1) /
          (([personaA, personaB] : List GeneratedPersona).length : ℚ)) * 100)) ∧
    (runSimulation readyState [personaA, personaB] defaultSurvey
        (fun i => if i = 0 then CallOutcome.parsed [⟨"q1", "5"⟩]
          else CallOutcome.threw) CallOutcome.threw).progressTrace.Pairwise
      (· < ·) ∧
    (runSimulation readyState [personaA, personaB] defaultSurvey
        (fun i => if i = 0 then CallOutcome.parsed [⟨"q1", "5"⟩]
          else CallOutcome.threw) CallOutcome.threw).progressTrace.getLast? =
      some 100) :=
  ⟨by decide,
    runSimulation_progress_spec readyState [personaA, personaB] defaultSurvey
      (fun i => if i = 0 then CallOutcome.parsed [⟨"q1", "5"⟩]
        else CallOutcome.threw) CallOutcome.threw (by decide)⟩

/-- Claim C3: coercion of a rating-scale answer parses the text as an
integer, with the fixed neutral default 3 on an unparsable value;
coercing "not-a-number" gives 3 and coercing "4" gives 4; answers to
open-ended and multiple-choice questions pass through as text; and a
malformed rating field does not discard the rest of the response, shown
on the default survey where the open-ended answer survives alongside
the defaulted rating. -/
theorem coerce_spec :
    coerce ratingQuestion "not-a-number" = AnswerValue.num 3 ∧
    coerce ratingQuestion "4" = AnswerValue.num 4 ∧
    (∀ (id tx raw : String) (opts : Option (List String)),
      coerce { id := id, text := tx, type := QuestionType.OPEN_ENDED,
               options := opts } raw = AnswerValue.text raw) ∧
    (∀ (id tx raw : String) (opts : Option (List String)),
      coerce { id := id, text := tx, type := QuestionType.MULTIPLE_CHOICE,
               options := opts } raw = AnswerValue.text raw) ∧
    (simulateSurveyResponse personaA defaultSurvey
        (CallOutcome.parsed [⟨"q1", "not-a-number"⟩, ⟨"q2", "fine"⟩])).answers =
      [⟨"q1", AnswerValue.num 3⟩, ⟨"q2", AnswerValue.text "fine"⟩] :=
  ⟨by decide, by decide, fun _ _ _ _ => rfl, fun _ _ _ _ => rfl, by decide⟩

/-- Claim C4, counterexample.  The claim says all three client calls
treat a missing or empty text field identically to a thrown error.  For
persona generation the code returns an empty list on missing text but
propagates a thrown error, so the two outcomes differ. -/
theorem generatePersonas_empty_text_not_error :
    generatePersonas CallOutcome.emptyText = Except.ok [] ∧
    generatePersonas CallOutcome.threw = Except.error () ∧
    generatePersonas CallOutcome.emptyText ≠
      generatePersonas CallOutcome.threw :=
  ⟨rfl, rfl, fun h => Except.noConfusion h⟩

/-- Claim C4, amended.  The response-simulation and analysis calls
treat a missing or empty text field (and unparsable text) identically
to a thrown error, yielding the same caller-visible outcome; the
persona-generation call does not: missing or empty text resolves with
an empty persona list while a thrown error rejects. -/
theorem client_failure_uniformity :
    (∀ (p : GeneratedPersona) (s : Survey),
      simulateSurveyResponse p s CallOutcome.emptyText =
          simulateSurveyResponse p s CallOutcome.threw ∧
        simulateSurveyResponse p s CallOutcome.unparsable =
          simulateSurveyResponse p s CallOutcome.threw) ∧
    (analyzeResults CallOutcome.emptyText = analyzeResults CallOutcome.threw ∧
      analyzeResults CallOutcome.unparsable =
        analyzeResults CallOutcome.threw) ∧
    (generatePersonas CallOutcome.emptyText = Except.ok [] ∧
      generatePersonas CallOutcome.threw = Except.error ()) :=
  ⟨fun _ _ => ⟨rfl, rfl⟩, ⟨rfl, rfl⟩, rfl, rfl⟩

/-- Claim C5 is contradicted by the code: the sanitisation step carries
the comment that rating values are clamped to 1..5, but no clamping is
performed, so an out-of-range model answer such as "7" is stored as the
integer 7, outside the 1..5 range the claim (and the comment) state. -/
theorem rating_answer_not_clamped :
    (simulateSurveyResponse personaA defaultSurvey
        (CallOutcome.parsed [⟨"q1", "7"⟩])).answers =
      [⟨"q1", AnswerValue.num 7⟩] ∧
    ¬ ((1 : Int) ≤ 7 ∧ (7 : Int) ≤ 5) ∧
    coerce ratingQuestion "0" = AnswerValue.num 0 ∧
    coerce ratingQuestion "-2" = AnswerValue.num (-2) :=
  ⟨by decide, by decide, by decide, by decide⟩

/-- Claim C6: for a rating-scale question for which no response carries
an answer, the tabulated chart data still has exactly the five
zero-seeded buckets 1..5. -/
theorem tabulate_rating_no_answers (q : Question)
    (responses : List SurveyResponse)
    (hq : q.type = QuestionType.RATING_SCALE)
    (hnone : ∀ r ∈ responses,
      r.answers.find? (fun a => a.questionId == q.id) = none) :
    tabulateQuestion q responses =
      [("1", 0), ("2", 0), ("3", 0), ("4", 0), ("5", 0)] := by
  revert hnone
  induction responses with
  | nil => intro _; simp [tabulateQuestion, seedBuckets, hq]
  | cons r rest ih =>
    intro hnone
    have hr := hnone r (List.mem_cons_self r rest)
    have step : tabulateQuestion q (r :: rest) = tabulateQuestion q rest := by
      simp only [tabulateQuestion, List.foldl_cons, hr]
    rw [step]
    exact ih (fun r2 h2 => hnone r2 (List.mem_cons_of_mem r h2))

/-- Witness for claim C6 at the default rating question and a response
list whose single response answers only the other question. -/
theorem tabulate_rating_no_answers_witness :
    ratingQuestion.type = QuestionType.RATING_SCALE ∧
    (∀ r ∈ ([⟨"p1", [⟨"q2", AnswerValue.text "fine"⟩]⟩] :
        List SurveyResponse),
      r.answers.find? (fun a => a.questionId == ratingQuestion.id) = none) ∧
    tabulateQuestion ratingQuestion
        [⟨"p1", [⟨"q2", AnswerValue.text "fine"⟩]⟩] =
      [("1", 0), ("2", 0), ("3", 0), ("4", 0), ("5", 0)] :=
  ⟨by decide, by decide,
    tabulate_rating_no_answers ratingQuestion
      [⟨"p1", [⟨"q2", AnswerValue.text "fine"⟩]⟩] (by decide) (by decide)⟩

/-- Claim C7: for a multiple-choice question, a response whose answer
is not among the declared options still lands in the chart data as an
extra bucket with count at least 1, and every declared-option bucket
keeps exactly the count it has without that response. -/
theorem tabulate_choice_extra_bucket (q : Question) (opts : List String)
    (rs : List SurveyResponse) (r : SurveyResponse) (a : AnswerEntry)
    (hq : q.type = QuestionType.MULTIPLE_CHOICE)
    (hopts : q.options = some opts)
    (hfind : r.answers.find? (fun x => x.questionId == q.id) = some a)
    (hnew : answerKey a.answer ∉ opts) :
    (∃ c, lookupCount (tabulateQuestion q (rs ++ [r]))
        (answerKey a.answer) = some c ∧ 1 ≤ c) ∧
    (∀ o ∈ opts, lookupCount (tabulateQuestion q (rs ++ [r])) o =
      lookupCount (tabulateQuestion q rs) o) := by
  have happ : tabulateQuestion q (rs ++ [r]) =
      incrKey (tabulateQuestion q rs) (answerKey a.answer) := by
    rw [tabulateQuestion_append_one, hfind]
  constructor
  · refine ⟨(lookupCount (tabulateQuestion q rs) (answerKey a.answer)).getD 0 + 1,
      ?_, Nat.le_add_left 1 _⟩
    rw [happ]
    exact lookupCount_incrKey_self _ _
  · intro o ho
    have hne : o ≠ answerKey a.answer := fun h => hnew (h ▸ ho)
    rw [happ]
    exact lookupCount_incrKey_ne _ _ _ hne

/-- Witness for claim C7 at the concrete choice question, an empty
prior response list and a response answering "Enterprise", which is not
a declared option. -/
theorem tabulate_choice_extra_bucket_witness :
    choiceQuestion.type = QuestionType.MULTIPLE_CHOICE ∧
    choiceQuestion.options = some ["Free", "Pro", "Team"] ∧
    (⟨"p1", [⟨"q3", AnswerValue.text "Enterprise"⟩]⟩ :
        SurveyResponse).answers.find?
        (fun x => x.questionId == choiceQuestion.id) =
      some ⟨"q3", AnswerValue.text "Enterprise"⟩ ∧
    answerKey (AnswerValue.text "Enterprise") ∉
      (["Free", "Pro", "Team"] : List String) ∧
    ((∃ c, lookupCount (tabulateQuestion choiceQuestion
        ([] ++ [⟨"p1", [⟨"q3", AnswerValue.text "Enterprise"⟩]⟩]))
        (answerKey (AnswerValue.text "Enterprise")) = some c ∧ 1 ≤ c) ∧
    (∀ o ∈ (["Free", "Pro", "Team"] : List String),
      lookupCount (tabulateQuestion choiceQuestion
          ([] ++ [⟨"p1", [⟨"q3", AnswerValue.text "Enterprise"⟩]⟩])) o =
        lookupCount (tabulateQuestion choiceQuestion []) o)) :=
  ⟨by decide, by decide, by decide, by decide,
    tabulate_choice_extra_bucket choiceQuestion ["Free", "Pro", "Team"] []
      ⟨"p1", [⟨"q3", AnswerValue.text "Enterprise"⟩]⟩
      ⟨"q3", AnswerValue.text "Enterprise"⟩
      (by decide) (by decide) (by decide) (by decide)⟩

/-- Claim C8, counterexample.  The claim says per-persona failures
reduce the final response count.  On the code they do not: with one
persona whose simulation call throws and a successful analysis, the
final response count is still 1, the run reaches RESULTS and no alert
is shown. -/
theorem runSimulation_failure_count_not_reduced :
    (runSimulation readyState [personaB] defaultSurvey
        (fun _ => CallOutcome.threw)
        (CallOutcome.parsed analysisFixture)).state.responses.length = 1 ∧
    (runSimulation readyState [personaB] defaultSurvey
        (fun _ => CallOutcome.threw)
        (CallOutcome.parsed analysisFixture)).state.step = Step.RESULTS ∧
    (runSimulation readyState [personaB] defaultSurvey
        (fun _ => CallOutcome.threw)
        (CallOutcome.parsed analysisFixture)).alerts = [] :=
  ⟨by decide, by decide, by decide⟩

/-- Claim C8, amended.  When the analysis call fails the run halts on
the SIMULATION step with an explicit alert, the stored analysis is
unchanged and the collected responses are kept, one per persona; when
the analysis call succeeds the run reaches RESULTS with no alert, again
with one response per persona — per-persona failures never produce an
alert and never reduce the response count. -/
theorem runSimulation_analysis_failure_spec (s0 : AppState)
    (panel : List GeneratedPersona) (survey : Survey)
    (so : Nat → CallOutcome (List RawAnswer)) (ao : CallOutcome AnalysisResult)
    (hne : panel ≠ []) :
    (analyzeResults ao = Except.error () →
      (runSimulation s0 panel survey so ao).state.step = Step.SIMULATION ∧
      (runSimulation s0 panel survey so ao).state.analysis = s0.analysis ∧
      (runSimulation s0 panel survey so ao).alerts =
        ["Simulation finished, but analysis failed."] ∧
      (runSimulation s0 panel survey so ao).state.responses.length =
        panel.length) ∧
    (∀ a, analyzeResults ao = Except.ok a →
      (runSimulation s0 panel survey so ao).state.step = Step.RESULTS ∧
      (runSimulation s0 panel survey so ao).alerts = [] ∧
      (runSimulation s0 panel survey so ao).state.responses.length =
        panel.length) := by
  have hlen : (runSimulation s0 panel survey so ao).state.responses.length =
      panel.length := by
    rw [runSimulation_responses s0 panel survey so ao hne]
    simp [List.enum_length]
  constructor
  · intro hfail
    obtain ⟨h1, h2, h3⟩ :=
      runSimulation_afterLoop_error s0 panel survey so ao hne hfail
    exact ⟨h1, h2, h3, hlen⟩
  · intro a hok
    obtain ⟨h1, _, h3⟩ :=
      runSimulation_afterLoop_ok s0 panel survey so ao a hne hok
    exact ⟨h1, h3, hlen⟩

/-- Witness for the amended claim C8 at a concrete one-persona panel
with a successful simulation call and a thrown analysis call. -/
theorem runSimulation_analysis_failure_spec_witness :
    (([personaA] : List GeneratedPersona) ≠ []) ∧
    ((analyzeResults CallOutcome.threw = Except.error () →
      (runSimulation readyState [personaA] defaultSurvey
          (fun _ => CallOutcome.parsed [⟨"q1", "4"⟩])
          CallOutcome.threw).state.step = Step.SIMULATION ∧
      (runSimulation readyState [personaA] defaultSurvey
          (fun _ => CallOutcome.parsed [⟨"q1", "4"⟩])
          CallOutcome.threw).state.analysis = readyState.analysis ∧
      (runSimulation readyState [personaA] defaultSurvey
          (fun _ => CallOutcome.parsed [⟨"q1", "4"⟩])
          CallOutcome.threw).alerts =
        ["Simulation finished, but analysis failed."] ∧
      (runSimulation readyState [personaA] defaultSurvey
          (fun _ => CallOutcome.parsed [⟨"q1", "4"⟩])
          CallOutcome.threw).state.responses.length =
        ([personaA] : List GeneratedPersona).length) ∧
    (∀ a, analyzeResults CallOutcome.threw = Except.ok a →
      (runSimulation readyState [personaA] defaultSurvey
          (fun _ => CallOutcome.parsed [⟨"q1", "4"⟩])
          CallOutcome.threw).state.step = Step.RESULTS ∧
      (runSimulation readyState [personaA] defaultSurvey
          (fun _ => CallOutcome.parsed [⟨"q1", "4"⟩])
          CallOutcome.threw).alerts = [] ∧
      (runSimulation readyState [personaA] defaultSurvey
          (fun _ => CallOutcome.parsed [⟨"q1", "4"⟩])
          CallOutcome.threw).state.responses.length =
        ([personaA] : List GeneratedPersona).length)) :=
  ⟨by decide,
    runSimulation_analysis_failure_spec readyState [personaA] defaultSurvey
      (fun _ => CallOutcome.parsed [⟨"q1", "4"⟩]) CallOutcome.threw
      (by decide)⟩

/-- Claim C9: saving a survey as a template with a non-blank name
appends a template whose stored snapshot equals the survey field by
field, and loading that template yields a survey equal to the original;
both directions go through the serialise-then-reconstruct deep copy, so
the loaded value is rebuilt from the snapshot rather than aliased. -/
theorem template_roundtrip (templates : List SavedTemplate)
    (nameInput : String) (survey : Survey) (newId : String) (now : Nat)
    (hname : jsTrim nameInput ≠ "") :
    saveTemplate templates nameInput survey newId now =
      some (templates ++
        [{ id := newId, name := nameInput, survey := survey,
           createdAt := now }]) ∧
    loadTemplate
        { id := newId, name := nameInput, survey := survey,
          createdAt := now } = some survey := by
  constructor
  · rw [saveTemplate, if_neg hname]
    rw [deepCopySurvey_eq]
    rfl
  · rw [loadTemplate]
    exact deepCopySurvey_eq survey

/-- Witness for claim C9 at the default survey and a concrete template
name. -/
theorem template_roundtrip_witness :
    (jsTrim "Concept survey" ≠ "") ∧
    (saveTemplate [] "Concept survey" defaultSurvey "t1" 1700000000000 =
      some ([] ++
        [{ id := "t1", name := "Concept survey", survey := defaultSurvey,
           createdAt := 1700000000000 }]) ∧
    loadTemplate
        { id := "t1", name := "Concept survey", survey := defaultSurvey,
          createdAt := 1700000000000 } = some defaultSurvey) :=
  ⟨by decide,
    template_roundtrip [] "Concept survey" defaultSurvey "t1" 1700000000000
      (by decide)⟩

/-- Claim C10: simulateSurveyResponse never rejects; on every failing
outcome of the external call (thrown error, missing or empty text,
unparsable text) it resolves with the input persona id and an empty
answers list, and on every outcome whatsoever the returned persona id
equals the input persona id. -/
theorem simulateSurveyResponse_total_spec (p : GeneratedPersona)
    (s : Survey) :
    (∀ o : CallOutcome (List RawAnswer),
      (simulateSurveyResponse p s o).personaId = p.id) ∧
    (simulateSurveyResponse p s CallOutcome.threw).answers = [] ∧
    (simulateSurveyResponse p s CallOutcome.emptyText).answers = [] ∧
    (simulateSurveyResponse p s CallOutcome.unparsable).answers = [] := by
  refine ⟨fun o => ?_, rfl, rfl, rfl⟩
  cases o <;> rfl
